import Mathlib

/-!
Shallow embedding of `model_zoo/model.py` (class `BaseModel`, a thin wrapper
around a Keras-style training engine) and proofs about its behaviour.

Python values that may be absent (`None`, missing dict keys, unset object
attributes) are modelled with `Option`; Python truthiness on optional numbers
(`if not steps_per_epoch`) is modelled by `pyTruthy`.  Calls into the external
training engine (`fit_generator`, `predict`, `compile`) are modelled as records
of the arguments the wrapper passes, since the engine itself is outside the
repository.
-/

namespace ModelZoo

/-- Element dtypes that appear in the wrapper: `tf.float32`, numpy's default
`float64` (from `np.random.rand`), and a catch-all for integer dtypes. -/
inductive DType where
  | float32
  | float64
  | int32
  deriving DecidableEq, Repr

/-- Python truthiness of an optional number: `None` and `0` are falsy. -/
def pyTruthy : Option Nat → Bool
  | none => false
  | some n => n != 0

/-- `math.ceil(a / b)` for nonnegative integers `a` and positive `b`. -/
def ceilDiv (a b : Nat) : Nat := (a + b - 1) / b

/-- The configuration mapping handed to `BaseModel.__init__`.  The four keys
read with `config[...]` are required; keys read with `config.get(...)` are
optional. -/
structure Config where
  batch_size : Nat
  epochs : Nat
  steps_per_epoch : Option Nat
  validation_steps : Option Nat
  learning_rate : Option ℚ
  early_stop_enable : Bool
  early_stop_patience : Option Nat
  tensor_board_enable : Bool
  tensor_board_dir : Option String
  checkpoint_enable : Bool
  checkpoint_dir : Option String
  checkpoint_name : Option String
  checkpoint_restore : Option Bool
  checkpoint_save_freq : Option Nat
  checkpoint_save_best_only : Option Bool
  deriving DecidableEq, Repr

/-- A callback object as assembled by `BaseModel.callbacks`. -/
inductive Callback where
  | baseLogger
  | earlyStopping (patience : Nat)
  | tensorBoard (log_dir : String)
  | modelCheckpoint (dir name : String) (restore : Bool) (save_freq : Nat)
      (save_best_only : Bool)
  deriving DecidableEq, Repr

/-- `BaseModel.callbacks`: base logger always first, then one callback per
enabled configuration flag, with the source's defaults for the `get` calls. -/
def callbacksOf (c : Config) : List Callback :=
  [Callback.baseLogger]
    ++ (if c.early_stop_enable then
          [Callback.earlyStopping (c.early_stop_patience.getD 50)]
        else [])
    ++ (if c.tensor_board_enable then
          [Callback.tensorBoard (c.tensor_board_dir.getD "events")]
        else [])
    ++ (if c.checkpoint_enable then
          [Callback.modelCheckpoint (c.checkpoint_dir.getD "checkpoints")
            (c.checkpoint_name.getD "model")
            (c.checkpoint_restore.getD true)
            (c.checkpoint_save_freq.getD 2)
            (c.checkpoint_save_best_only.getD false)]
        else [])

/-- An optimizer object; the default implementation builds
`tf.train.GradientDescentOptimizer(lr)`. -/
inductive Optimizer where
  | gradientDescent (learning_rate : ℚ)
  deriving DecidableEq, Repr

/-- `BaseModel.optimizer`: gradient descent with
`config.get('learning_rate', 0.01)`. -/
def optimizerOf (c : Config) : Optimizer :=
  Optimizer.gradientDescent (c.learning_rate.getD (1 / 100))

/-- A numpy array or tensorflow tensor, abstracted to what the wrapper
inspects: its shape, element dtype, and whether it is already a tensor
(`tensor_util.is_tensor`). -/
structure Arr where
  shape : List Nat
  dtype : DType
  isTensor : Bool
  deriving DecidableEq, Repr

/-- The argument of `BaseModel.construct` (and of the user `call` hook): either
a single array/tensor, or a nonempty list/tuple of them.  (The source indexes
`inputs[0]` before slicing, so an empty list is outside its domain.) -/
inductive CInput where
  | single (a : Arr)
  | list (hd : Arr) (tl : List Arr)
  deriving DecidableEq, Repr

/-- The return value of the user `call` hook: a single output or a
list/tuple of outputs (`construct` normalizes both to a list). -/
inductive COutput where
  | single (a : Arr)
  | list (xs : List Arr)
  deriving DecidableEq, Repr

/-- The overridable computation hook `call`. -/
def CallFn := CInput → COutput

/-- The default `BaseModel.call`: identity on its input. -/
def defaultCall : CallFn
  | CInput.single a => COutput.single a
  | CInput.list hd tl => COutput.list (hd :: tl)

/-- `training_utils.cast_if_floating_dtype`: floating arrays are cast to
`K.floatx()` = float32. -/
def castIfFloating (a : Arr) : Arr :=
  if a.dtype = DType.float32 ∨ a.dtype = DType.float64 then
    { a with dtype := DType.float32 }
  else a

/-- `ops.convert_to_tensor(v, dtype=K.floatx())`. -/
def convertToTensor (a : Arr) : Arr :=
  { a with isTensor := true, dtype := DType.float32 }

/-- Slicing `a[:1]` along the first axis of an array. -/
def slice1 (a : Arr) : Arr :=
  { a with shape := match a.shape with
                    | [] => []
                    | d :: rest => min 1 d :: rest }

/-- A `base_layer.DeferredTensor(shape=(None for _ in v.shape), dtype=...)`:
only the rank and dtype survive. -/
structure Placeholder where
  ndim : Nat
  dtype : DType
  deriving DecidableEq, Repr

/-- `DeferredTensor` built from an array: one `None` per axis, the array's
dtype. -/
def deferredOf (a : Arr) : Placeholder := ⟨a.shape.length, a.dtype⟩

/-- Generated placeholder names `input_1, input_2, ...` (resp. `output_...`). -/
def genNames (pre : String) (n : Nat) : List String :=
  (List.range n).map (fun i => pre ++ toString (i + 1))

/-- The wrapper's mutable state: configuration extracts made by `__init__`,
the `shaped`/`built` flags, the placeholder attributes (unset = `none`), and
the arguments of the last `compile` call made by `init`. -/
structure BaseM where
  config : Config
  batch_size : Nat
  epochs : Nat
  steps_per_epoch : Option Nat
  validation_steps : Option Nat
  shaped : Bool
  built : Bool
  inputs : Option (List Placeholder)
  outputs : Option (List Placeholder)
  input_names : Option (List String)
  output_names : Option (List String)
  compiled : Option (Optimizer × String)
  deriving DecidableEq, Repr

/-- `BaseModel.__init__(config)`. -/
def mkModel (c : Config) : BaseM :=
  { config := c
    batch_size := c.batch_size
    epochs := c.epochs
    steps_per_epoch := c.steps_per_epoch
    validation_steps := c.validation_steps
    shaped := false
    built := false
    inputs := none
    outputs := none
    input_names := none
    output_names := none
    compiled := none }

/-- `BaseModel.init`: `self.compile(optimizer=self.optimizer(), loss='mse')`. -/
def initHook (m : BaseM) : BaseM :=
  { m with compiled := some (optimizerOf m.config, "mse") }

/-- `BaseModel.shape(inputs_shape=None, output_shape=None, dtype=None)`.
An absent or empty shape tuple is falsy, so its branch is skipped; the input
placeholder uses the (defaulted) `dtype` argument while the output placeholder
takes the dtype of the `np.random.rand` sample, which is float64. -/
def shapeDecl (m : BaseM) (inputs_shape output_shape : Option (List Nat))
    (dtype : Option DType) : BaseM :=
  let dt := dtype.getD DType.float32
  let m :=
    match inputs_shape with
    | some s =>
      if s ≠ [] then
        { m with inputs := some [⟨s.length, dt⟩],
                 input_names := some (genNames "input_" 1) }
      else m
    | none => m
  let m :=
    match output_shape with
    | some s =>
      if s ≠ [] then
        { m with outputs := some [⟨s.length, DType.float64⟩],
                 output_names := some (genNames "output_" 1) }
      else m
    | none => m
  { m with shaped := true }

/-- Observable events of one `construct` call: the user `call` hook ran
(shape inference), or the `init` hook ran. -/
inductive Ev where
  | callRun
  | initRun
  deriving DecidableEq, Repr

/-- `BaseModel.construct(inputs)`.  If not yet shaped, runs `call` on a
one-example slice of the input to obtain dummy outputs, normalizes inputs and
outputs to lists, stores `DeferredTensor` placeholders and generated names and
sets `shaped`; in every case it then marks the model built and invokes the
`init` hook.  Returns the new state together with the trace of events in
execution order. -/
def construct (cf : CallFn) (m : BaseM) (inputs : CInput) : BaseM × List Ev :=
  if m.shaped then
    (initHook { m with built := true }, [Ev.initRun])
  else
    let step : List Arr × COutput :=
      match inputs with
      | CInput.list hd _ =>
        let callArg :=
          if hd.isTensor then CInput.list (castIfFloating hd) []
          else CInput.list (convertToTensor hd) []
        ([hd], cf callArg)
      | CInput.single a =>
        let s := slice1 a
        let callArg :=
          if a.isTensor then CInput.single (castIfFloating s)
          else CInput.single (convertToTensor s)
        ([s], cf callArg)
    let dummy_input_values := step.1
    let dummy_output_values :=
      match step.2 with
      | COutput.list xs => xs
      | COutput.single a => [a]
    let m := { m with
      outputs := some (dummy_output_values.map deferredOf)
      inputs := some (dummy_input_values.map deferredOf)
      input_names := some (genNames "input_" dummy_input_values.length)
      output_names := some (genNames "output_" dummy_output_values.length)
      shaped := true }
    (initHook { m with built := true }, [Ev.callRun, Ev.initRun])

/-- The arguments `train` passes to the engine's `fit_generator`. -/
structure FitGenCall where
  steps_per_epoch : Nat
  epochs : Nat
  validation_steps : Nat
  cbs : List Callback
  deriving DecidableEq, Repr

/-- `BaseModel.train(train_data, eval_data, use_generator=True, **kwargs)`:
the generator branch.  `x` is the first batch drawn from the generator;
`train_size` and `eval_size` model `kwargs.get(..., 0)`.  Returns the raised
exception message, or the mutated state with the `fit_generator` call. -/
def trainGen (cf : CallFn) (m : BaseM) (x : CInput)
    (train_size eval_size : Nat) : Except String (BaseM × FitGenCall) :=
  let m := (construct cf m x).1
  let steps_per_epoch := m.steps_per_epoch
  let steps_per_epoch :=
    if ¬ pyTruthy steps_per_epoch ∧ train_size ≠ 0 then
      some (ceilDiv train_size m.batch_size)
    else steps_per_epoch
  if ¬ pyTruthy steps_per_epoch then
    Except.error "You must specify `steps_per_epoch` argument if `train_size` is not set"
  else
    let validation_steps := m.validation_steps
    let validation_steps :=
      if ¬ pyTruthy validation_steps ∧ eval_size ≠ 0 then
        some (ceilDiv eval_size m.batch_size)
      else validation_steps
    let validation_steps :=
      if ¬ pyTruthy validation_steps then 1 else validation_steps.getD 0
    Except.ok (m,
      { steps_per_epoch := steps_per_epoch.getD 0
        epochs := m.epochs
        validation_steps := validation_steps
        cbs := callbacksOf m.config })

/-- Projection: the `fit_generator` call of a non-raising `train`, if any. -/
def fitGenOf : Except String (BaseM × FitGenCall) → Option FitGenCall
  | Except.ok p => some p.2
  | Except.error _ => none

/-- The arguments `infer` passes to the engine's `predict`, returned
unchanged as `infer`'s result. -/
structure PredictCall where
  x : Arr
  batch_size : Nat
  deriving DecidableEq, Repr

/-- `BaseModel.infer(test_data, batch_size=None)`: a falsy `batch_size`
(absent, `None`, or `0`) is replaced by the configured one. -/
def infer (m : BaseM) (test_data : Arr) (batch_size : Option Nat) :
    PredictCall :=
  let bs := if ¬ pyTruthy batch_size then m.batch_size else batch_size.getD 0
  { x := test_data, batch_size := bs }

/-- Recognizer for the base logging callback. -/
def isBaseLogger : Callback → Bool
  | Callback.baseLogger => true
  | _ => false

/-- Recognizer for early-stopping callbacks. -/
def isEarlyStopping : Callback → Bool
  | Callback.earlyStopping _ => true
  | _ => false

/-- Recognizer for tensorboard callbacks. -/
def isTensorBoard : Callback → Bool
  | Callback.tensorBoard _ => true
  | _ => false

/-- Recognizer for checkpoint callbacks. -/
def isCheckpoint : Callback → Bool
  | Callback.modelCheckpoint _ _ _ _ _ => true
  | _ => false

/-- A concrete configuration used to instantiate the theorems:
batch size 10, no configured step counts, everything else at defaults. -/
def cfgA : Config :=
  { batch_size := 10
    epochs := 3
    steps_per_epoch := none
    validation_steps := none
    learning_rate := none
    early_stop_enable := false
    early_stop_patience := none
    tensor_board_enable := false
    tensor_board_dir := none
    checkpoint_enable := false
    checkpoint_dir := none
    checkpoint_name := none
    checkpoint_restore := none
    checkpoint_save_freq := none
    checkpoint_save_best_only := none }

/-- A concrete first batch: a single 5x4 float64 numpy array. -/
def xA : CInput := CInput.single ⟨[5, 4], DType.float64, false⟩

/-- A concrete test array for `infer`. -/
def arrA : Arr := ⟨[2], DType.float32, true⟩

/-! ## Helper lemmas -/

/-- `construct` never touches the configuration extracts made by
`__init__`. -/
theorem construct_preserves (cf : CallFn) (m : BaseM) (x : CInput) :
    (construct cf m x).1.config = m.config ∧
    (construct cf m x).1.batch_size = m.batch_size ∧
    (construct cf m x).1.epochs = m.epochs ∧
    (construct cf m x).1.steps_per_epoch = m.steps_per_epoch ∧
    (construct cf m x).1.validation_steps = m.validation_steps := by
  unfold construct initHook
  split <;> simp

/-- After any `construct` call the model is shaped. -/
theorem construct_shaped (cf : CallFn) (m : BaseM) (x : CInput) :
    (construct cf m x).1.shaped = true := by
  unfold construct initHook
  split <;> simp_all

/-- On an already-shaped model, `construct` only marks the model built and
invokes the `init` hook. -/
theorem construct_of_shaped (cf : CallFn) (m : BaseM) (x : CInput)
    (h : m.shaped = true) :
    construct cf m x = (initHook { m with built := true }, [Ev.initRun]) := by
  unfold construct
  simp [h]

/-- `shapeDecl` always sets the `shaped` flag. -/
theorem shapeDecl_shaped (m : BaseM) (i o : Option (List Nat))
    (dt : Option DType) : (shapeDecl m i o dt).shaped = true := by
  unfold shapeDecl
  rcases i with _ | s <;> rcases o with _ | t <;> dsimp only

/-- A positive numerator and denominator give a positive ceiling
division. -/
theorem ceilDiv_pos (a b : Nat) (ha : 0 < a) (hb : 0 < b) :
    0 < ceilDiv a b := by
  unfold ceilDiv
  have h : b ≤ a + b - 1 := by omega
  exact Nat.lt_of_lt_of_le Nat.zero_lt_one ((Nat.one_le_div_iff hb).2 h)

/-! ## Claims -/

/-- Claim C1: in generator mode, with the wrapper's `steps_per_epoch` unset
and no `train_size` keyword supplied, `train` raises an exception carrying a
descriptive configuration-error message and never reaches the engine's
`fit_generator` routine. -/
theorem train_generator_missing_steps_raises
    (cf : CallFn) (m : BaseM) (x : CInput) (eval_size : Nat)
    (h : m.steps_per_epoch = none) :
    trainGen cf m x 0 eval_size =
      Except.error
        "You must specify `steps_per_epoch` argument if `train_size` is not set" := by
  have hp := (construct_preserves cf m x).2.2.2.1
  unfold trainGen
  dsimp only
  rw [hp, h]
  simp [pyTruthy]

/-- Witness for C1 at a concrete configuration. -/
theorem train_generator_missing_steps_raises_witness :
    (mkModel cfgA).steps_per_epoch = none ∧
    trainGen defaultCall (mkModel cfgA) xA 0 0 =
      Except.error
        "You must specify `steps_per_epoch` argument if `train_size` is not set" :=
  ⟨rfl, train_generator_missing_steps_raises defaultCall (mkModel cfgA) xA 0 rfl⟩

/-- Claim C2: in generator mode, with `steps_per_epoch` unset and a positive
`train_size` keyword supplied, `train` passes
`steps_per_epoch = ceil(train_size / batch_size)` to the engine's
`fit_generator` routine. -/
theorem train_generator_computes_steps
    (cf : CallFn) (m : BaseM) (x : CInput) (train_size eval_size : Nat)
    (hb : 0 < m.batch_size) (hts : 0 < train_size)
    (h : m.steps_per_epoch = none) :
    (fitGenOf (trainGen cf m x train_size eval_size)).map
        (fun fc => fc.steps_per_epoch)
      = some (ceilDiv train_size m.batch_size) := by
  have hp := (construct_preserves cf m x).2.2.2.1
  have hbp := (construct_preserves cf m x).2.1
  have hpos := ceilDiv_pos train_size m.batch_size hts hb
  unfold trainGen
  dsimp only
  rw [hp, h, hbp]
  simp [pyTruthy, fitGenOf, Nat.pos_iff_ne_zero.1 hts, Nat.pos_iff_ne_zero.1 hpos]

/-- Witness for C2: `train_size = 100`, `batch_size = 10` yields 10. -/
theorem train_generator_computes_steps_witness :
    (fitGenOf (trainGen defaultCall (mkModel cfgA) xA 100 7)).map
        (fun fc => fc.steps_per_epoch) = some 10 := by
  have h := train_generator_computes_steps defaultCall (mkModel cfgA) xA 100 7
    (by decide) (by decide) rfl
  rw [h]; decide

/-- Claim C3: after `shape` has been called with explicit (nonempty) input
and output shapes, the `shaped` flag is true and any subsequent `construct`
takes the no-inference branch: it never runs `call` and leaves the
previously set placeholders and names untouched. -/
theorem shape_prevents_reinference
    (m : BaseM) (s t : List Nat) (dt : Option DType) (cf : CallFn)
    (x : CInput) (hs : s ≠ []) (ht : t ≠ []) :
    (shapeDecl m (some s) (some t) dt).shaped = true ∧
    (shapeDecl m (some s) (some t) dt).inputs
      = some [⟨s.length, dt.getD DType.float32⟩] ∧
    (shapeDecl m (some s) (some t) dt).outputs
      = some [⟨t.length, DType.float64⟩] ∧
    Ev.callRun ∉ (construct cf (shapeDecl m (some s) (some t) dt) x).2 ∧
    (construct cf (shapeDecl m (some s) (some t) dt) x).1.inputs
      = (shapeDecl m (some s) (some t) dt).inputs ∧
    (construct cf (shapeDecl m (some s) (some t) dt) x).1.outputs
      = (shapeDecl m (some s) (some t) dt).outputs ∧
    (construct cf (shapeDecl m (some s) (some t) dt) x).1.input_names
      = (shapeDecl m (some s) (some t) dt).input_names ∧
    (construct cf (shapeDecl m (some s) (some t) dt) x).1.output_names
      = (shapeDecl m (some s) (some t) dt).output_names := by
  have hsh := shapeDecl_shaped m (some s) (some t) dt
  rw [construct_of_shaped cf _ x hsh]
  simp [initHook, hsh, shapeDecl, hs, ht, genNames]

/-- Witness for C3 at concrete shapes `[3, 2]` and `[7]`. -/
theorem shape_prevents_reinference_witness :
    ([3, 2] : List Nat) ≠ [] ∧
    (shapeDecl (mkModel cfgA) (some [3, 2]) (some [7]) none).shaped = true ∧
    Ev.callRun ∉
      (construct defaultCall
        (shapeDecl (mkModel cfgA) (some [3, 2]) (some [7]) none) xA).2 :=
  ⟨by decide,
   (shape_prevents_reinference (mkModel cfgA) [3, 2] [7] none defaultCall xA
      (by decide) (by decide)).1,
   (shape_prevents_reinference (mkModel cfgA) [3, 2] [7] none defaultCall xA
      (by decide) (by decide)).2.2.2.1⟩

/-- Claim C4: `construct` is idempotent on the shape state: a second call
leaves `inputs`, `outputs`, `input_names`, `output_names` and `shaped`
exactly as the first call did, and performs no inference. -/
theorem construct_idempotent (cf : CallFn) (m : BaseM) (x : CInput) :
    (construct cf (construct cf m x).1 x).1.inputs
      = (construct cf m x).1.inputs ∧
    (construct cf (construct cf m x).1 x).1.outputs
      = (construct cf m x).1.outputs ∧
    (construct cf (construct cf m x).1 x).1.input_names
      = (construct cf m x).1.input_names ∧
    (construct cf (construct cf m x).1 x).1.output_names
      = (construct cf m x).1.output_names ∧
    (construct cf (construct cf m x).1 x).1.shaped
      = (construct cf m x).1.shaped ∧
    Ev.callRun ∉ (construct cf (construct cf m x).1 x).2 := by
  rw [construct_of_shaped cf _ x (construct_shaped cf m x)]
  simp [initHook]

/-- Counterexample to claim C5 as stated: on a fresh wrapper, a second
`construct` call still invokes the `init` hook, so `init` is not invoked
only once. -/
theorem construct_reruns_init_counterexample :
    Ev.initRun ∈
      (construct defaultCall
        (construct defaultCall (mkModel cfgA) xA).1 xA).2 := by
  rw [construct_of_shaped defaultCall _ xA
    (construct_shaped defaultCall (mkModel cfgA) xA)]
  simp

/-- Claim C5 (amended): every `construct` call invokes the `init` hook
exactly once, as its last action, and only after the wrapper is shaped and
marked built; what fails in the original claim is only the at-most-once
part, since each later `construct` (and hence each `train`) invokes `init`
again. -/
theorem construct_runs_init_after_shape (cf : CallFn) (m : BaseM)
    (x : CInput) :
    (construct cf m x).2.count Ev.initRun = 1 ∧
    (construct cf m x).2.getLast? = some Ev.initRun ∧
    (construct cf m x).1.shaped = true ∧
    (construct cf m x).1.built = true := by
  unfold construct initHook
  split <;> simp_all

/-- Claim C6: `callbacks` always starts with the base logging callback, the
list contains exactly one early-stopping callback iff `early_stop_enable`
(with patience `early_stop_patience` defaulting to 50), exactly one
tensorboard callback iff `tensor_board_enable` (directory defaulting to
"events"), exactly one checkpoint callback iff `checkpoint_enable`, and its
length is one plus the number of enabled flags. -/
theorem callbacks_structure (c : Config) :
    (callbacksOf c).head? = some Callback.baseLogger ∧
    (callbacksOf c).countP isBaseLogger = 1 ∧
    (callbacksOf c).countP isEarlyStopping
      = (if c.early_stop_enable then 1 else 0) ∧
    (callbacksOf c).countP
        (fun cb => cb == Callback.earlyStopping (c.early_stop_patience.getD 50))
      = (if c.early_stop_enable then 1 else 0) ∧
    (callbacksOf c).countP isTensorBoard
      = (if c.tensor_board_enable then 1 else 0) ∧
    (callbacksOf c).countP
        (fun cb => cb == Callback.tensorBoard (c.tensor_board_dir.getD "events"))
      = (if c.tensor_board_enable then 1 else 0) ∧
    (callbacksOf c).countP isCheckpoint
      = (if c.checkpoint_enable then 1 else 0) ∧
    (callbacksOf c).length
      = 1 + (if c.early_stop_enable then 1 else 0)
          + (if c.tensor_board_enable then 1 else 0)
          + (if c.checkpoint_enable then 1 else 0) := by
  unfold callbacksOf
  cases he : c.early_stop_enable <;> cases ht : c.tensor_board_enable <;>
    cases hc : c.checkpoint_enable <;>
    simp [isBaseLogger, isEarlyStopping, isTensorBoard, isCheckpoint,
      List.countP_cons, List.countP_append]

/-- Claim C7: in generator mode the validation step count handed to
`fit_generator` is the configured `validation_steps` when that is set to a
nonzero value, else `ceil(eval_size / batch_size)` when a positive
`eval_size` keyword was supplied, else 1 — and an unresolvable
`validation_steps` never raises (whenever `steps_per_epoch` resolves, the
call reaches the engine). -/
theorem train_generator_validation_steps
    (cf : CallFn) (m : BaseM) (x : CInput) (train_size eval_size : Nat)
    (hb : 0 < m.batch_size)
    (hres : pyTruthy m.steps_per_epoch = true ∨ 0 < train_size) :
    (fitGenOf (trainGen cf m x train_size eval_size)).map
        (fun fc => fc.validation_steps)
      = some (if pyTruthy m.validation_steps then m.validation_steps.getD 0
              else if 0 < eval_size then ceilDiv eval_size m.batch_size
              else 1) := by
  have hp := (construct_preserves cf m x).2.2.2.1
  have hv := (construct_preserves cf m x).2.2.2.2
  have hbp := (construct_preserves cf m x).2.1
  unfold trainGen
  dsimp only
  rw [hp, hv, hbp]
  rcases hres with hres | hres
  · have hspe : pyTruthy (if ¬ pyTruthy m.steps_per_epoch = true ∧
        train_size ≠ 0 then some (ceilDiv train_size m.batch_size)
        else m.steps_per_epoch) = true := by
      simp [hres]
    rw [hspe]
    rcases hvt : pyTruthy m.validation_steps with _ | _
    · rcases hes : eval_size with _ | k
      · simp [fitGenOf, hvt]
      · have hpos := ceilDiv_pos (k + 1) m.batch_size (Nat.succ_pos k) hb
        simp [fitGenOf, hvt, pyTruthy, Nat.pos_iff_ne_zero.1 hpos]
    · simp [fitGenOf, hvt]
  · have hpos := ceilDiv_pos train_size m.batch_size hres hb
    have hspe : pyTruthy (if ¬ pyTruthy m.steps_per_epoch = true ∧
        train_size ≠ 0 then some (ceilDiv train_size m.batch_size)
        else m.steps_per_epoch) = true := by
      rcases hst : pyTruthy m.steps_per_epoch with _ | _
      · simp [hst, Nat.pos_iff_ne_zero.1 hres, pyTruthy,
          Nat.pos_iff_ne_zero.1 hpos]
      · simp [hst]
    rw [hspe]
    rcases hvt : pyTruthy m.validation_steps with _ | _
    · rcases hes : eval_size with _ | k
      · simp [fitGenOf, hvt]
      · have hpos2 := ceilDiv_pos (k + 1) m.batch_size (Nat.succ_pos k) hb
        simp [fitGenOf, hvt, pyTruthy, Nat.pos_iff_ne_zero.1 hpos2]
    · simp [fitGenOf, hvt]

/-- Witness for C7: no configured `validation_steps`, `eval_size = 25`,
`batch_size = 10` passes 3 validation steps. -/
theorem train_generator_validation_steps_witness :
    (fitGenOf (trainGen defaultCall (mkModel cfgA) xA 100 25)).map
        (fun fc => fc.validation_steps) = some 3 := by
  have h := train_generator_validation_steps defaultCall (mkModel cfgA) xA
    100 25 (by decide) (Or.inr (by decide))
  rw [h]; decide

/-- Claim C8: the default `optimizer` returns gradient descent at learning
rate 0.01 when no `learning_rate` is configured, and at the configured rate
otherwise. -/
theorem default_optimizer_learning_rate (c : Config) :
    (c.learning_rate = none →
      optimizerOf c = Optimizer.gradientDescent (1 / 100)) ∧
    (∀ r : ℚ, c.learning_rate = some r →
      optimizerOf c = Optimizer.gradientDescent r) := by
  constructor
  · intro h
    simp [optimizerOf, h]
  · intro r h
    simp [optimizerOf, h]

/-- Witness for C8: the default rate at a concrete config without
`learning_rate`, and the configured rate 3/100 at one with it. -/
theorem default_optimizer_learning_rate_witness :
    optimizerOf cfgA = Optimizer.gradientDescent (1 / 100) ∧
    optimizerOf { cfgA with learning_rate := some (3 / 100) }
      = Optimizer.gradientDescent (3 / 100) :=
  ⟨(default_optimizer_learning_rate cfgA).1 rfl,
   (default_optimizer_learning_rate
      { cfgA with learning_rate := some (3 / 100) }).2 (3 / 100) rfl⟩

/-- Counterexample to claim C9 as stated: passing the explicit argument
`batch_size = 0` does not forward 0 to `predict`; the configured batch size
(10) is used instead, because the source tests Python truthiness rather
than presence. -/
theorem infer_zero_batch_counterexample :
    (infer (mkModel cfgA) arrA (some 0)).batch_size ≠ 0 ∧
    (infer (mkModel cfgA) arrA (some 0)).batch_size = 10 := by
  constructor <;> decide

/-- Claim C9 (amended): `infer` forwards the test data unchanged to the
engine's `predict`; with `batch_size` omitted the wrapper's configured batch
size is passed, with a positive `batch_size` argument that value is passed,
and a zero (falsy) `batch_size` argument is treated as omitted. -/
theorem infer_batch_size_delegation (m : BaseM) (a : Arr) :
    (infer m a none).batch_size = m.batch_size ∧
    (infer m a none).x = a ∧
    (infer m a (some 0)).batch_size = m.batch_size ∧
    (∀ b : Nat, 0 < b →
      (infer m a (some b)).batch_size = b ∧ (infer m a (some b)).x = a) := by
  refine ⟨rfl, rfl, rfl, fun b hb => ⟨?_, rfl⟩⟩
  simp [infer, pyTruthy, Nat.pos_iff_ne_zero.1 hb]

/-- Witness for C9 (amended) at a concrete wrapper and batch size 7. -/
theorem infer_batch_size_delegation_witness :
    (infer (mkModel cfgA) arrA none).batch_size = 10 ∧
    (infer (mkModel cfgA) arrA (some 7)).batch_size = 7 := by
  constructor
  · rw [(infer_batch_size_delegation (mkModel cfgA) arrA).1]
    decide
  · exact ((infer_batch_size_delegation (mkModel cfgA) arrA).2.2.2 7
      (by decide)).1

/-- Claim C10: `shape` called with both shapes absent still sets `shaped`
while leaving placeholders and names unset, so a later `construct` skips
inference entirely, marks the wrapper built and invokes `init`, with no
shapes ever established. -/
theorem shape_none_skips_all_inference (c : Config) (dt : Option DType)
    (cf : CallFn) (x : CInput) :
    (shapeDecl (mkModel c) none none dt).shaped = true ∧
    (shapeDecl (mkModel c) none none dt).inputs = none ∧
    (shapeDecl (mkModel c) none none dt).outputs = none ∧
    (shapeDecl (mkModel c) none none dt).input_names = none ∧
    (shapeDecl (mkModel c) none none dt).output_names = none ∧
    Ev.callRun ∉ (construct cf (shapeDecl (mkModel c) none none dt) x).2 ∧
    Ev.initRun ∈ (construct cf (shapeDecl (mkModel c) none none dt) x).2 ∧
    (construct cf (shapeDecl (mkModel c) none none dt) x).1.built = true ∧
    (construct cf (shapeDecl (mkModel c) none none dt) x).1.inputs = none ∧
    (construct cf (shapeDecl (mkModel c) none none dt) x).1.outputs = none ∧
    (construct cf (shapeDecl (mkModel c) none none dt) x).1.input_names
      = none ∧
    (construct cf (shapeDecl (mkModel c) none none dt) x).1.output_names
      = none := by
  have hsh := shapeDecl_shaped (mkModel c) none none dt
  rw [construct_of_shaped cf _ x hsh]
  simp [initHook, hsh, shapeDecl, mkModel]

end ModelZoo
